import Mathlib

/-!
Shallow embedding of the `node` package of ltvm/wallet-cache
(src/unnamed/part_000): a caching proxy in front of a JSON-RPC endpoint.

Modelling conventions:
* Go structs become Lean structures with the same field names
  (`JSONRPCMessage`, `JSONRPCResponse`).
* `encoding/json` marshalling of those two structs is embedded as an
  explicit field-list renderer that mirrors the `omitempty` tags of the
  source: a field is emitted iff its value is non-zero (empty string,
  integer 0, empty slice and nil interface are the Go "empty" values).
  String escaping is elided: all strings that occur here are free of
  characters that JSON escaping would rewrite.
* The Go map `cacheResponse map[string]JSONRPCResponse` is a function
  `String -> Option JSONRPCResponse` (a Go map read yields a
  value copy, which the struct-update in `GetCacheResponse` mirrors).
  The mutex only guards this map; atomicity itself is outside a
  sequential embedding, so operations are plain state-passing functions.
* HTTP requests keep the parts the source manipulates: the HTTP verb
  (`req.Method` in Go, named `httpMethod` here to avoid clashing with the
  JSON-RPC method), target URL, raw body bytes (as a `String`) and the
  User-Agent header.
* The network and the JSON decoder are the environment: `upstream` maps
  an outbound request to the upstream's outcome (transport error, or a
  status code with a body), and `decodeMsg` / `decodeResp` model
  `json.Unmarshal` of a body at the two struct types (`none` = parse
  error). `endpoint` is the NODE_ENDPOINT configuration value.
* `callMethod`, `makeRequest`, `cloneRequest`, `SetCacheResponse`,
  `GetCacheResponse`, `HandleRequest` and the body of `cacheWorker`'s
  loop (`cacheWorkerCycle`) are translated statement by statement.
  `HandleRequest` and `cacheWorkerCycle` additionally return the list of
  outbound upstream requests / the list of observable actions, so that
  call counts and step order are statable. The infinite worker loop is
  embedded by finite unrolling (`cacheWorkerTrace`).
* In the model, `json.Marshal` of the two structs and request
  construction against the configured endpoint are total, as they are in
  the source for every value that can actually reach them; their
  unreachable error branches (which log, wait a tick and continue, like
  every other worker failure) are therefore not separate cases.
-/

/-- Go struct `JSONRPCMessage` (part_000 lines 18-23): a JSON-RPC request
envelope. All four fields carry `omitempty`. -/
structure JSONRPCMessage where
  Version : String := ""
  ID : Int := 0
  Method : String := ""
  Params : List String := []
deriving DecidableEq, Repr

/-- Go struct `JSONRPCResponse` (part_000 lines 25-29): a JSON-RPC response
envelope. `Result interface{}` is opaque data; it is embedded as
`Option String`, `none` for the nil interface and `some v` for a present
payload carried as its rendered JSON text. All fields carry `omitempty`. -/
structure JSONRPCResponse where
  Version : String := ""
  ID : Int := 0
  Result : Option String := none
deriving DecidableEq, Repr

/-- JSON string literal (escaping elided, see header). -/
def quoteJson (s : String) : String := "\"" ++ s ++ "\""

/-- Render an ordered field list as the member list of a JSON object. -/
def renderFields : List (String × String) → String
  | [] => ""
  | [(k, v)] => quoteJson k ++ ":" ++ v
  | (k, v) :: rest => quoteJson k ++ ":" ++ v ++ "," ++ renderFields rest

/-- Render a JSON object from its ordered field list. -/
def renderObj (fields : List (String × String)) : String :=
  "\x7b" ++ renderFields fields ++ "\x7d"

/-- Render a JSON array of strings. -/
def renderStrArr : List String → String
  | [] => "[]"
  | s :: rest => "[" ++ quoteJson s ++ renderStrArrTail rest ++ "]"
where
  renderStrArrTail : List String → String
  | [] => ""
  | s :: rest => "," ++ quoteJson s ++ renderStrArrTail rest

/-- The fields `json.Marshal` emits for a `JSONRPCMessage`, in struct
order, honouring every field's `omitempty` tag (Go's empty values:
`""`, `0`, empty slice). -/
def marshalMessageFields (m : JSONRPCMessage) : List (String × String) :=
  (if m.Version = "" then [] else [("jsonrpc", quoteJson m.Version)]) ++
  (if m.ID = 0 then [] else [("id", toString m.ID)]) ++
  (if m.Method = "" then [] else [("method", quoteJson m.Method)]) ++
  (if m.Params = [] then [] else [("params", renderStrArr m.Params)])

/-- `json.Marshal` of a `JSONRPCMessage`. -/
def marshalMessage (m : JSONRPCMessage) : String :=
  renderObj (marshalMessageFields m)

/-- The fields `json.Marshal` emits for a `JSONRPCResponse`, in struct
order, honouring `omitempty` (`Result` is omitted exactly when the
interface is nil). -/
def marshalResponseFields (r : JSONRPCResponse) : List (String × String) :=
  (if r.Version = "" then [] else [("jsonrpc", quoteJson r.Version)]) ++
  (if r.ID = 0 then [] else [("id", toString r.ID)]) ++
  (match r.Result with
   | none => []
   | some v => [("result", v)])

/-- `json.Marshal` of a `JSONRPCResponse`. -/
def marshalResponse (r : JSONRPCResponse) : String :=
  renderObj (marshalResponseFields r)

/-- An outbound HTTP request, reduced to the parts the source reads or
writes: HTTP verb, URL, body bytes, User-Agent header. -/
structure HttpRequest where
  httpMethod : String
  url : String
  body : String
  userAgent : Option String := none
deriving DecidableEq, Repr

/-- What the upstream endpoint does with one outbound request: fail at the
transport level (the error `http.Client.Do` / body read returns), or
deliver a response with a status code and body bytes. -/
inductive UpstreamOutcome where
  | transportError (msg : String)
  | response (status : Nat) (body : String)
deriving DecidableEq, Repr

/-- The environment of the `node` package: the configured NODE_ENDPOINT,
the upstream's behaviour, and `json.Unmarshal` at the two struct types
(`none` = parse error). -/
structure Env where
  endpoint : String
  upstream : HttpRequest → UpstreamOutcome
  decodeMsg : String → Option JSONRPCMessage
  decodeResp : String → Option JSONRPCResponse

/-- Go struct `NodeCache` (part_000 lines 31-35), reduced to its one piece
of data: the method-name-keyed response map. The `http.Client` is
transport (part of `Env`), the `RWMutex` guards this map. -/
structure NodeCache where
  cacheResponse : String → Option JSONRPCResponse

/-- The map `NewNodeCache` starts from: `make(map[string]JSONRPCResponse)`. -/
def emptyCache : NodeCache := ⟨fun _ => none⟩

/-- `SetCacheResponse` (part_000 lines 135-139): unconditionally overwrite
the entry for `method`. -/
def SetCacheResponse (nc : NodeCache) (method : String) (message : JSONRPCResponse) : NodeCache :=
  ⟨fun m => if m = method then some message else nc.cacheResponse m⟩

/-- `GetCacheResponse` (part_000 lines 142-156): on a map hit, copy the
entry, overwrite its `ID` with the inbound message's `ID`, marshal and
return it; on a miss return the "not supported caching" error. Reading
`nc.cacheResponse[message.Method]` yields a value copy, so the `ID`
assignment never touches the map. -/
def GetCacheResponse (nc : NodeCache) (message : JSONRPCMessage) : Except String String :=
  match nc.cacheResponse message.Method with
  | some jsonRPCResponse =>
      .ok (marshalResponse { jsonRPCResponse with ID := message.ID })
  | none => .error ("Method " ++ message.Method ++ " is not supported caching")

/-- `callMethod` (part_000 lines 91-109): execute the request; a transport
error propagates; a 200 yields the body bytes; any other status yields
the "Status code is %d" error, with no body. -/
def callMethod (outcome : UpstreamOutcome) : Except String String :=
  match outcome with
  | .transportError msg => .error msg
  | .response status body =>
      if status = 200 then .ok body
      else .error ("Status code is " ++ toString status)

/-- `makeRequest` (part_000 lines 111-132): marshal
`JSONRPCMessage{Version:"2.0", Method:method, Params:[]string{}}` and wrap
it in an HTTP POST to NODE_ENDPOINT. No User-Agent is set here. -/
def makeRequest (endpoint : String) (method : String) : HttpRequest :=
  { httpMethod := "POST"
    url := endpoint
    body := marshalMessage { Version := "2.0", Method := method, Params := [] }
    userAgent := none }

/-- The User-Agent string `cloneRequest` attaches. -/
def userAgentValue : String :=
  "Mozilla/5.0 (Macintosh; Intel Mac OS X 10_11_6) AppleWebKit/537.36 (KHTML, like Gecko) Chrome/56.0.2924.87 Safari/537.36"

/-- `cloneRequest` (part_000 lines 188-204): re-issue the request's body
verbatim, with the same HTTP verb, against NODE_ENDPOINT, and set the
fixed User-Agent header. -/
def cloneRequest (endpoint : String) (req : HttpRequest) : HttpRequest :=
  { httpMethod := req.httpMethod
    url := endpoint
    body := req.body
    userAgent := some userAgentValue }

/-- `HandleRequest` (part_000 lines 159-185): read the body; if it
unmarshals as a `JSONRPCMessage` and `GetCacheResponse` succeeds, return
the cache answer; otherwise clone the original request against the
endpoint and relay `callMethod`'s result. Besides the Go results
(`[]byte, error`, as `Except String String`), the model returns the cache
state after the call and the list of outbound upstream requests made. -/
def HandleRequest (env : Env) (nc : NodeCache) (req : HttpRequest) :
    Except String String × NodeCache × List HttpRequest :=
  match env.decodeMsg req.body with
  | some message =>
      match GetCacheResponse nc message with
      | .ok cacheResp => (.ok cacheResp, nc, [])
      | .error _ =>
          (callMethod (env.upstream (cloneRequest env.endpoint req)), nc,
           [cloneRequest env.endpoint req])
  | none =>
      (callMethod (env.upstream (cloneRequest env.endpoint req)), nc,
       [cloneRequest env.endpoint req])

/-- Observable steps of one `cacheWorker` loop iteration: an outbound
upstream call, a cache store, and blocking on the ticker. -/
inductive WAction where
  | callUpstream (req : HttpRequest)
  | store (method : String) (resp : JSONRPCResponse)
  | wait
deriving DecidableEq, Repr

/-- One iteration of the `cacheWorker` loop body (part_000 lines 56-87):
make the synthetic request, clone it (adding the User-Agent), call the
upstream; on any failure (transport, non-200 status, unparseable payload)
log, wait a tick and continue with the cache untouched; on success store
the parsed response, then wait a tick. Returns the cache afterwards and
the observable actions in order. -/
def cacheWorkerCycle (env : Env) (method : String) (nc : NodeCache) :
    NodeCache × List WAction :=
  match callMethod (env.upstream (cloneRequest env.endpoint (makeRequest env.endpoint method))) with
  | .error _ =>
      (nc, [.callUpstream (cloneRequest env.endpoint (makeRequest env.endpoint method)), .wait])
  | .ok resp =>
      match env.decodeResp resp with
      | none =>
          (nc, [.callUpstream (cloneRequest env.endpoint (makeRequest env.endpoint method)), .wait])
      | some jsonRPCResponse =>
          (SetCacheResponse nc method jsonRPCResponse,
           [.callUpstream (cloneRequest env.endpoint (makeRequest env.endpoint method)),
            .store method jsonRPCResponse, .wait])

/-- Finite unrolling of the infinite `for` loop of `cacheWorker`: the cache
and the concatenated observable actions after `n` iterations. -/
def cacheWorkerTrace (env : Env) (method : String) (nc : NodeCache) : Nat → NodeCache × List WAction
  | 0 => (nc, [])
  | n + 1 =>
      ((cacheWorkerTrace env method (cacheWorkerCycle env method nc).1 n).1,
       (cacheWorkerCycle env method nc).2 ++
         (cacheWorkerTrace env method (cacheWorkerCycle env method nc).1 n).2)

/-- A refresh cycle's failure condition, as the source tests it: transport
error, non-200 status, or a body `json.Unmarshal` rejects. -/
def refreshFailsB (env : Env) (proxyReq : HttpRequest) : Bool :=
  match env.upstream proxyReq with
  | .transportError _ => true
  | .response status body => status != 200 || (env.decodeResp body).isNone

/-- A history of `SetCacheResponse` calls applied in order. -/
def applySets (nc : NodeCache) : List (String × JSONRPCResponse) → NodeCache
  | [] => nc
  | (m, r) :: rest => applySets (SetCacheResponse nc m r) rest

/-! Concrete fixtures, used to evaluate the embedded operations at
specific inputs. -/

/-- A cached response as a background refresh stores it: `ID` 0 (the
synthesized request carries no id), with a gas-price result payload. -/
def sampleResp : JSONRPCResponse :=
  { Version := "2.0", ID := 0, Result := some (quoteJson "0x4a817c800") }

/-- An inbound request envelope for a cached method, with caller id 42. -/
def sampleMsg : JSONRPCMessage :=
  { Version := "2.0", ID := 42, Method := "eth_gasPrice", Params := [] }

/-- The raw inbound body carrying `sampleMsg`. -/
def sampleBody : String := marshalMessage sampleMsg

/-- A cache holding one entry, for method eth_gasPrice. -/
def sampleCache : NodeCache := SetCacheResponse emptyCache "eth_gasPrice" sampleResp

/-- Environment for the cache-hit scenario: the decoder accepts exactly
`sampleBody`. -/
def hitEnv : Env :=
  { endpoint := "http://node"
    upstream := fun _ => .response 200 "unused"
    decodeMsg := fun s => if s = sampleBody then some sampleMsg else none
    decodeResp := fun _ => none }

/-- The inbound HTTP request carrying `sampleBody`. -/
def sampleReq : HttpRequest :=
  { httpMethod := "POST", url := "http://proxy", body := sampleBody }

/-- An inbound envelope for a method that is never cached, caller id 7. -/
def missMsg : JSONRPCMessage :=
  { Version := "2.0", ID := 7, Method := "eth_blockNumber", Params := [] }

/-- The raw inbound body carrying `missMsg`. -/
def missBody : String := marshalMessage missMsg

/-- The inbound HTTP request carrying `missBody`. -/
def missReq : HttpRequest :=
  { httpMethod := "POST", url := "http://proxy", body := missBody }

/-- Environment for the cache-miss scenario: upstream answers 200 with
body "relayed". -/
def missEnv : Env :=
  { endpoint := "http://node"
    upstream := fun _ => .response 200 "relayed"
    decodeMsg := fun s => if s = missBody then some missMsg else none
    decodeResp := fun _ => none }

/-- Environment in which the upstream answers HTTP 500 and nothing
decodes: every refresh cycle fails. -/
def failEnv : Env :=
  { endpoint := "http://node"
    upstream := fun _ => .response 500 "oops"
    decodeMsg := fun _ => none
    decodeResp := fun _ => none }

/-- Environment in which no inbound body decodes as a `JSONRPCMessage`
and the upstream answers 200 with body "passthrough". -/
def passEnv : Env :=
  { endpoint := "http://node"
    upstream := fun _ => .response 200 "passthrough"
    decodeMsg := fun _ => none
    decodeResp := fun _ => none }

/-- An inbound request whose body is not a JSON-RPC envelope. -/
def rawReq : HttpRequest :=
  { httpMethod := "POST", url := "http://proxy", body := "\x7b malformed" }

/-- The outbound request a worker for eth_gasPrice sends against the
endpoint http://node. -/
def workerProxyReq : HttpRequest :=
  cloneRequest "http://node" (makeRequest "http://node" "eth_gasPrice")

/-- A cached response with id 5 and a nil result payload. -/
def nilResultResp : JSONRPCResponse := { Version := "2.0", ID := 5, Result := none }

/-- A cache holding `nilResultResp` under eth_gasPrice. -/
def nilCache : NodeCache := SetCacheResponse emptyCache "eth_gasPrice" nilResultResp

/-- An inbound envelope with id 0 (an absent id parses to 0) for a cached
method. -/
def zeroIdMsg : JSONRPCMessage :=
  { Version := "2.0", ID := 0, Method := "eth_gasPrice", Params := [] }

/-! Helper lemmas (shared). -/

/-- `GetCacheResponse` succeeds exactly when the map has an entry for the
message's method. -/
theorem getCacheResponse_isOk (nc : NodeCache) (msg : JSONRPCMessage) :
    (GetCacheResponse nc msg).isOk = true ↔ nc.cacheResponse msg.Method ≠ none := by
  unfold GetCacheResponse
  cases h : nc.cacheResponse msg.Method <;> simp [h, Except.isOk, Except.toBool]

/-- Looking up a key in the map after a history of sets misses exactly
when it missed before and the history never set that key. -/
theorem applySets_lookup_none (sets : List (String × JSONRPCResponse)) :
    ∀ (nc : NodeCache) (m : String),
      (applySets nc sets).cacheResponse m = none ↔
        nc.cacheResponse m = none ∧ ∀ r, (m, r) ∉ sets := by
  induction sets with
  | nil => intro nc m; simp [applySets]
  | cons p rest ih =>
      intro nc m
      obtain ⟨mk, rk⟩ := p
      rw [show applySets nc ((mk, rk) :: rest) = applySets (SetCacheResponse nc mk rk) rest from rfl]
      rw [ih]
      constructor
      · rintro ⟨h1, h2⟩
        by_cases hm : m = mk
        · subst hm
          rw [show (SetCacheResponse nc m rk).cacheResponse m = some rk from by
            simp [SetCacheResponse]] at h1
          exact absurd h1 (by simp)
        · refine ⟨?_, ?_⟩
          · rw [show (SetCacheResponse nc mk rk).cacheResponse m = nc.cacheResponse m from by
              simp [SetCacheResponse, hm]] at h1
            exact h1
          · intro r hmem
            rcases List.mem_cons.mp hmem with hc | hc
            · exact hm (congrArg Prod.fst hc)
            · exact h2 r hc
      · rintro ⟨h1, h2⟩
        by_cases hm : m = mk
        · subst hm
          exact absurd (List.mem_cons_self _ _) (h2 rk)
        · refine ⟨?_, ?_⟩
          · rw [show (SetCacheResponse nc mk rk).cacheResponse m = nc.cacheResponse m from by
              simp [SetCacheResponse, hm]]
            exact h1
          · intro r hr
            exact h2 r (List.mem_cons_of_mem _ hr)

/-- A response marshalled with a zero id has no id member. -/
theorem lookup_id_marshal_none (r : JSONRPCResponse) (h : r.ID = 0) :
    List.lookup "id" (marshalResponseFields r) = none := by
  obtain ⟨V, I, R⟩ := r
  replace h : I = 0 := h
  subst h
  by_cases hv : V = "" <;> cases R <;> simp [marshalResponseFields, hv]

/-- A response marshalled with a nil result payload has no result member. -/
theorem lookup_result_marshal_none (r : JSONRPCResponse) (h : r.Result = none) :
    List.lookup "result" (marshalResponseFields r) = none := by
  obtain ⟨V, I, R⟩ := r
  replace h : R = none := h
  subst h
  by_cases hv : V = "" <;> by_cases hi : I = 0 <;> simp [marshalResponseFields, hv, hi]

/-! Claim theorems. -/

/-- C1: for every inbound request whose body parses and whose method has a
cache entry, `HandleRequest` returns the cached response with its `ID`
overwritten by the inbound request's id, whatever id was stored. -/
theorem cache_hit_overwrites_id (env : Env) (nc : NodeCache) (req : HttpRequest)
    (message : JSONRPCMessage) (r : JSONRPCResponse)
    (hparse : env.decodeMsg req.body = some message)
    (hhit : nc.cacheResponse message.Method = some r) :
    (HandleRequest env nc req).1 = .ok (marshalResponse { r with ID := message.ID }) := by
  simp [HandleRequest, hparse, GetCacheResponse, hhit]

/-- C1 witness: cached id 0, inbound id 42, returned body carries id 42. -/
theorem cache_hit_overwrites_id_witness :
    hitEnv.decodeMsg sampleReq.body = some sampleMsg ∧
    sampleCache.cacheResponse sampleMsg.Method = some sampleResp ∧
    sampleResp.ID = 0 ∧
    sampleMsg.ID = 42 ∧
    (HandleRequest hitEnv sampleCache sampleReq).1 =
      .ok (marshalResponse { sampleResp with ID := sampleMsg.ID }) ∧
    marshalResponse { sampleResp with ID := sampleMsg.ID } =
      "\x7b\"jsonrpc\":\"2.0\",\"id\":42,\"result\":\"0x4a817c800\"\x7d" :=
  ⟨rfl, rfl, rfl, rfl,
   cache_hit_overwrites_id hitEnv sampleCache sampleReq sampleMsg sampleResp rfl rfl,
   rfl⟩

/-- C4: `callMethod` returns the raw body iff the status is exactly 200;
a non-success status yields the error carrying the observed status code;
a transport failure yields that error; no body in either failure case. -/
theorem callMethod_status_dichotomy (status : Nat) (body emsg : String) :
    (callMethod (.response status body) = .ok body ↔ status = 200) ∧
    (status ≠ 200 →
      callMethod (.response status body) = .error ("Status code is " ++ toString status)) ∧
    callMethod (.transportError emsg) = .error emsg := by
  refine ⟨?_, ?_, rfl⟩
  · by_cases h : status = 200 <;> simp [callMethod, h]
  · intro h
    simp [callMethod, h]

/-- C4 witness: status 500 yields the status error, status 200 yields the
body, a transport failure yields its error. -/
theorem callMethod_status_dichotomy_witness :
    (500 : Nat) ≠ 200 ∧
    callMethod (.response 500 "ignored") = .error ("Status code is " ++ toString (500 : Nat)) ∧
    callMethod (.response 200 "payload") = .ok "payload" ∧
    callMethod (.transportError "connection refused") = .error "connection refused" :=
  ⟨by decide,
   (callMethod_status_dichotomy 500 "ignored" "x").2.1 (by decide),
   (callMethod_status_dichotomy 200 "payload" "x").1.mpr rfl,
   (callMethod_status_dichotomy 500 "b" "connection refused").2.2⟩

/-- C7: when the inbound body fails to parse, `HandleRequest` skips the
cache lookup (its answer does not depend on the cache) and forwards the
original raw body upstream unmodified rather than rejecting locally. -/
theorem parse_failure_passthrough (env : Env) (nc : NodeCache) (req : HttpRequest)
    (hparse : env.decodeMsg req.body = none) :
    HandleRequest env nc req =
      (callMethod (env.upstream (cloneRequest env.endpoint req)), nc,
       [cloneRequest env.endpoint req]) ∧
    (cloneRequest env.endpoint req).body = req.body ∧
    ∀ other : NodeCache, (HandleRequest env other req).1 = (HandleRequest env nc req).1 := by
  refine ⟨by simp [HandleRequest, hparse], rfl, ?_⟩
  intro other
  simp [HandleRequest, hparse]

/-- C7 witness: a malformed body is forwarded verbatim and the upstream's
answer is relayed. -/
theorem parse_failure_passthrough_witness :
    passEnv.decodeMsg rawReq.body = none ∧
    HandleRequest passEnv sampleCache rawReq =
      (callMethod (passEnv.upstream (cloneRequest passEnv.endpoint rawReq)), sampleCache,
       [cloneRequest passEnv.endpoint rawReq]) ∧
    callMethod (passEnv.upstream (cloneRequest passEnv.endpoint rawReq)) = .ok "passthrough" ∧
    (cloneRequest passEnv.endpoint rawReq).body = rawReq.body :=
  ⟨rfl, (parse_failure_passthrough passEnv sampleCache rawReq rfl).1, rfl, rfl⟩

/-- C8: `HandleRequest` never writes to the cache map: the map after a
call is the map before it; the id overwrite on a hit touches only the
returned value. -/
theorem handle_request_no_cache_write (env : Env) (nc : NodeCache) (req : HttpRequest) :
    (HandleRequest env nc req).2.1 = nc ∧
    ∀ m, ((HandleRequest env nc req).2.1).cacheResponse m = nc.cacheResponse m := by
  have h : (HandleRequest env nc req).2.1 = nc := by
    cases hd : env.decodeMsg req.body with
    | none => simp [HandleRequest, hd]
    | some message =>
        cases hg : GetCacheResponse nc message with
        | ok v => simp [HandleRequest, hd, hg]
        | error e => simp [HandleRequest, hd, hg]
  exact ⟨h, fun m => by rw [h]⟩

/-- C6: on a parse success with no cache entry for the method,
`HandleRequest` makes exactly one upstream call, re-issuing the original
body verbatim with the same HTTP verb against the endpoint, with the
fixed User-Agent attached, relays the upstream bytes unchanged, and the
cache-miss error itself never reaches the caller. -/
theorem cache_miss_forwards_once (env : Env) (nc : NodeCache) (req : HttpRequest)
    (message : JSONRPCMessage)
    (hparse : env.decodeMsg req.body = some message)
    (hmiss : nc.cacheResponse message.Method = none) :
    (HandleRequest env nc req).2.2 = [cloneRequest env.endpoint req] ∧
    (cloneRequest env.endpoint req).body = req.body ∧
    (cloneRequest env.endpoint req).httpMethod = req.httpMethod ∧
    (cloneRequest env.endpoint req).url = env.endpoint ∧
    (cloneRequest env.endpoint req).userAgent = some userAgentValue ∧
    (HandleRequest env nc req).1 = callMethod (env.upstream (cloneRequest env.endpoint req)) ∧
    ∀ b, env.upstream (cloneRequest env.endpoint req) = .response 200 b →
      (HandleRequest env nc req).1 = .ok b := by
  have hget : GetCacheResponse nc message =
      .error ("Method " ++ message.Method ++ " is not supported caching") := by
    simp [GetCacheResponse, hmiss]
  refine ⟨?_, rfl, rfl, rfl, rfl, ?_, ?_⟩
  · simp [HandleRequest, hparse, hget]
  · simp [HandleRequest, hparse, hget]
  · intro b hb
    simp [HandleRequest, hparse, hget, hb, callMethod]

/-- C6 witness: an uncached method with caller id 7 causes one upstream
call carrying the original body and the fixed User-Agent, and the
upstream's 200 body is relayed. -/
theorem cache_miss_forwards_once_witness :
    missEnv.decodeMsg missReq.body = some missMsg ∧
    emptyCache.cacheResponse missMsg.Method = none ∧
    (HandleRequest missEnv emptyCache missReq).2.2 = [cloneRequest missEnv.endpoint missReq] ∧
    (cloneRequest missEnv.endpoint missReq).body = missReq.body ∧
    (cloneRequest missEnv.endpoint missReq).userAgent = some userAgentValue ∧
    (HandleRequest missEnv emptyCache missReq).1 = .ok "relayed" :=
  ⟨rfl, rfl,
   (cache_miss_forwards_once missEnv emptyCache missReq missMsg rfl rfl).1,
   (cache_miss_forwards_once missEnv emptyCache missReq missMsg rfl rfl).2.1,
   (cache_miss_forwards_once missEnv emptyCache missReq missMsg rfl rfl).2.2.2.2.1,
   (cache_miss_forwards_once missEnv emptyCache missReq missMsg rfl rfl).2.2.2.2.2.2 "relayed" rfl⟩

/-- C2: a refresh cycle that fails (transport error, non-200 status, or
unparseable payload) mutates nothing: the cycle returns the cache
untouched and ends by waiting a tick; iterating the loop any number of
times keeps the cache at its prior value while the loop keeps running
(two actions per cycle, forever). -/
theorem failed_refresh_preserves_cache (env : Env) (method : String) (nc : NodeCache)
    (hfail : refreshFailsB env (cloneRequest env.endpoint (makeRequest env.endpoint method)) =
      true) :
    cacheWorkerCycle env method nc =
      (nc, [WAction.callUpstream (cloneRequest env.endpoint (makeRequest env.endpoint method)),
            WAction.wait]) ∧
    ∀ n : Nat, (cacheWorkerTrace env method nc n).1 = nc ∧
      (cacheWorkerTrace env method nc n).2.length = 2 * n := by
  have hcycle : cacheWorkerCycle env method nc =
      (nc, [WAction.callUpstream (cloneRequest env.endpoint (makeRequest env.endpoint method)),
            WAction.wait]) := by
    unfold refreshFailsB at hfail
    cases hu : env.upstream (cloneRequest env.endpoint (makeRequest env.endpoint method)) with
    | transportError e => simp [cacheWorkerCycle, callMethod, hu]
    | response s b =>
        rw [hu] at hfail
        simp only [Bool.or_eq_true, bne_iff_ne, ne_eq, Option.isNone_iff_eq_none] at hfail
        by_cases hs : s = 200
        · rcases hfail with h | h
          · exact absurd hs h
          · simp [cacheWorkerCycle, callMethod, hu, hs, h]
        · simp [cacheWorkerCycle, callMethod, hu, hs]
  refine ⟨hcycle, ?_⟩
  intro n
  induction n with
  | zero => exact ⟨rfl, rfl⟩
  | succ k ih =>
      constructor
      · show (cacheWorkerTrace env method (cacheWorkerCycle env method nc).1 k).1 = nc
        rw [hcycle]
        exact ih.1
      · show ((cacheWorkerCycle env method nc).2 ++
            (cacheWorkerTrace env method (cacheWorkerCycle env method nc).1 k).2).length =
          2 * (k + 1)
        rw [hcycle]
        simp only [List.length_append, List.length_cons, List.length_nil]
        rw [ih.2]
        ring

/-- C2 witness: with the upstream answering HTTP 500, a worker for a
method with an existing entry leaves that entry visible and unchanged
after three full cycles. -/
theorem failed_refresh_preserves_cache_witness :
    refreshFailsB failEnv (cloneRequest failEnv.endpoint (makeRequest failEnv.endpoint
      "eth_gasPrice")) = true ∧
    cacheWorkerCycle failEnv "eth_gasPrice" sampleCache =
      (sampleCache,
       [WAction.callUpstream (cloneRequest failEnv.endpoint (makeRequest failEnv.endpoint
          "eth_gasPrice")),
        WAction.wait]) ∧
    (cacheWorkerTrace failEnv "eth_gasPrice" sampleCache 3).1.cacheResponse "eth_gasPrice" =
      some sampleResp :=
  ⟨rfl,
   (failed_refresh_preserves_cache failEnv "eth_gasPrice" sampleCache rfl).1,
   by
     rw [((failed_refresh_preserves_cache failEnv "eth_gasPrice" sampleCache rfl).2 3).1]
     rfl⟩

/-- C3 counterexample: the claim puts a wait before the first upstream
call. In the code the first observable action of a worker is the
upstream call — the tick is only awaited after the cycle's work. -/
theorem worker_first_action_not_wait :
    (cacheWorkerTrace failEnv "eth_gasPrice" emptyCache 1).2.head? =
      some (WAction.callUpstream workerProxyReq) ∧
    some (WAction.callUpstream workerProxyReq) ≠ some WAction.wait :=
  ⟨rfl, by decide⟩

/-- C3 amended: each worker cycle calls the upstream first — with no wait
before the first call — then on success stores the parsed result (on
failure skips), and only then waits one interval; the loop repeats
forever with no terminal state, every unrolling starting with the
upstream call of its first cycle. -/
theorem worker_cycle_order (env : Env) (method : String) (nc : NodeCache) :
    ((cacheWorkerCycle env method nc).2 =
        [WAction.callUpstream (cloneRequest env.endpoint (makeRequest env.endpoint method)),
         WAction.wait] ∨
      ∃ j, (cacheWorkerCycle env method nc).2 =
        [WAction.callUpstream (cloneRequest env.endpoint (makeRequest env.endpoint method)),
         WAction.store method j, WAction.wait]) ∧
    (∀ n : Nat, (cacheWorkerTrace env method nc (n + 1)).2.head? =
        some (WAction.callUpstream (cloneRequest env.endpoint (makeRequest env.endpoint
          method)))) ∧
    ∀ n : Nat, cacheWorkerTrace env method nc (n + 1) =
      ((cacheWorkerTrace env method (cacheWorkerCycle env method nc).1 n).1,
       (cacheWorkerCycle env method nc).2 ++
         (cacheWorkerTrace env method (cacheWorkerCycle env method nc).1 n).2) := by
  have h1 : (cacheWorkerCycle env method nc).2 =
        [WAction.callUpstream (cloneRequest env.endpoint (makeRequest env.endpoint method)),
         WAction.wait] ∨
      ∃ j, (cacheWorkerCycle env method nc).2 =
        [WAction.callUpstream (cloneRequest env.endpoint (makeRequest env.endpoint method)),
         WAction.store method j, WAction.wait] := by
    cases hc : callMethod (env.upstream (cloneRequest env.endpoint (makeRequest env.endpoint
        method))) with
    | error e =>
        left
        simp [cacheWorkerCycle, hc]
    | ok resp =>
        cases hd : env.decodeResp resp with
        | none =>
            left
            simp [cacheWorkerCycle, hc, hd]
        | some j =>
            right
            exact ⟨j, by simp [cacheWorkerCycle, hc, hd]⟩
  refine ⟨h1, ?_, fun n => rfl⟩
  intro n
  show ((cacheWorkerCycle env method nc).2 ++
      (cacheWorkerTrace env method (cacheWorkerCycle env method nc).1 n).2).head? = _
  rcases h1 with h | ⟨j, h⟩ <;> rw [h] <;> rfl

/-- C5: starting from the empty map and any history of worker stores,
`GetCacheResponse` signals its not-supported error exactly when the
history never stored the message's method; and once some store for that
method is in the history, any continuation of it still yields a hit —
entries are only upserted, never deleted. -/
theorem get_notfound_iff_never_put (sets : List (String × JSONRPCResponse))
    (msg : JSONRPCMessage) :
    ((GetCacheResponse (applySets emptyCache sets) msg).isOk = true ↔
      ∃ r, (msg.Method, r) ∈ sets) ∧
    ∀ (more : List (String × JSONRPCResponse)) (r : JSONRPCResponse),
      (msg.Method, r) ∈ sets →
      (GetCacheResponse (applySets emptyCache (sets ++ more)) msg).isOk = true := by
  have key : ∀ l : List (String × JSONRPCResponse),
      (applySets emptyCache l).cacheResponse msg.Method = none ↔
        ∀ r, (msg.Method, r) ∉ l := by
    intro l
    rw [applySets_lookup_none]
    simp [emptyCache]
  constructor
  · rw [getCacheResponse_isOk]
    constructor
    · intro h
      by_contra hc
      push_neg at hc
      exact h ((key sets).mpr hc)
    · rintro ⟨r, hr⟩ hnone
      exact (key sets).mp hnone r hr
  · intro more r hr
    rw [getCacheResponse_isOk]
    intro hnone
    exact (key (sets ++ more)).mp hnone r (List.mem_append_left more hr)

/-- C5 witness: with eth_gasPrice stored once, a lookup after a further
unrelated store still hits. -/
theorem get_notfound_iff_never_put_witness :
    (sampleMsg.Method, sampleResp) ∈ [("eth_gasPrice", sampleResp)] ∧
    (GetCacheResponse
        (applySets emptyCache ([("eth_gasPrice", sampleResp)] ++ [("other", nilResultResp)]))
        sampleMsg).isOk = true :=
  ⟨by decide,
   (get_notfound_iff_never_put [("eth_gasPrice", sampleResp)] sampleMsg).2
     [("other", nilResultResp)] sampleResp (by decide)⟩

/-- C9 counterexample: the body a worker actually sends for eth_gasPrice
has no params member at all — `Params []string` carries `omitempty`, so
the synthesized empty slice is dropped from the serialized envelope (as
is the zero id). -/
theorem worker_envelope_omits_params :
    (makeRequest "http://node" "eth_gasPrice").body =
      "\x7b\"jsonrpc\":\"2.0\",\"method\":\"eth_gasPrice\"\x7d" ∧
    List.lookup "params"
      (marshalMessageFields { Version := "2.0", Method := "eth_gasPrice", Params := [] }) =
      none :=
  ⟨rfl, rfl⟩

/-- C9 amended: the refresh synthesizes the envelope struct with version
"2.0", the method name and an empty params slice, and sends it as an
HTTP POST to the configured endpoint — but the serialized body contains
only the jsonrpc and method members, the empty params list (and the zero
id) being omitted by `omitempty`. -/
theorem worker_envelope_fields (endpoint method : String) (hm : method ≠ "") :
    marshalMessageFields { Version := "2.0", Method := method, Params := [] } =
      [("jsonrpc", quoteJson "2.0"), ("method", quoteJson method)] ∧
    cloneRequest endpoint (makeRequest endpoint method) =
      { httpMethod := "POST", url := endpoint,
        body := renderObj [("jsonrpc", quoteJson "2.0"), ("method", quoteJson method)],
        userAgent := some userAgentValue } := by
  have hfields : marshalMessageFields { Version := "2.0", Method := method, Params := [] } =
      [("jsonrpc", quoteJson "2.0"), ("method", quoteJson method)] := by
    simp [marshalMessageFields, hm]
  refine ⟨hfields, ?_⟩
  simp [cloneRequest, makeRequest, marshalMessage, hfields]

/-- C9 witness: the worker request for eth_gasPrice is a POST to the
endpoint whose body holds exactly the jsonrpc and method members. -/
theorem worker_envelope_fields_witness :
    ("eth_gasPrice" : String) ≠ "" ∧
    marshalMessageFields { Version := "2.0", Method := "eth_gasPrice", Params := [] } =
      [("jsonrpc", quoteJson "2.0"), ("method", quoteJson "eth_gasPrice")] ∧
    cloneRequest "http://node" (makeRequest "http://node" "eth_gasPrice") =
      { httpMethod := "POST", url := "http://node",
        body := renderObj [("jsonrpc", quoteJson "2.0"), ("method", quoteJson "eth_gasPrice")],
        userAgent := some userAgentValue } :=
  ⟨by decide,
   (worker_envelope_fields "http://node" "eth_gasPrice" (by decide)).1,
   (worker_envelope_fields "http://node" "eth_gasPrice" (by decide)).2⟩

/-- C10: on a cache hit, every member of the returned object obeys
`omitempty`: an inbound id of 0 (absent parses to 0) yields a body with
no id member, and a cached nil result payload yields a body with no
result member. -/
theorem omitempty_zero_id_nil_result (nc : NodeCache) (msg : JSONRPCMessage)
    (r : JSONRPCResponse)
    (hhit : nc.cacheResponse msg.Method = some r) :
    GetCacheResponse nc msg = .ok (renderObj (marshalResponseFields { r with ID := msg.ID })) ∧
    (msg.ID = 0 → List.lookup "id" (marshalResponseFields { r with ID := msg.ID }) = none) ∧
    (r.Result = none →
      List.lookup "result" (marshalResponseFields { r with ID := msg.ID }) = none) := by
  refine ⟨by simp [GetCacheResponse, hhit, marshalResponse], ?_, ?_⟩
  · intro h0
    exact lookup_id_marshal_none _ (by simp [h0])
  · intro hres
    exact lookup_result_marshal_none _ (by simp [hres])

/-- C10 witness: a cached entry with id 5 and nil result, read with
inbound id 0, returns a body with neither an id nor a result member. -/
theorem omitempty_zero_id_nil_result_witness :
    nilCache.cacheResponse zeroIdMsg.Method = some nilResultResp ∧
    zeroIdMsg.ID = 0 ∧
    nilResultResp.Result = none ∧
    GetCacheResponse nilCache zeroIdMsg = .ok "\x7b\"jsonrpc\":\"2.0\"\x7d" ∧
    List.lookup "id" (marshalResponseFields { nilResultResp with ID := zeroIdMsg.ID }) = none ∧
    List.lookup "result" (marshalResponseFields { nilResultResp with ID := zeroIdMsg.ID }) =
      none :=
  ⟨rfl, rfl, rfl,
   by
     rw [(omitempty_zero_id_nil_result nilCache zeroIdMsg nilResultResp rfl).1]
     rfl,
   (omitempty_zero_id_nil_result nilCache zeroIdMsg nilResultResp rfl).2.1 rfl,
   (omitempty_zero_id_nil_result nilCache zeroIdMsg nilResultResp rfl).2.2 rfl⟩
